import Mathlib

/-!
Verification of the submission-intake and judging-dispatch core of the
OnlineJudge repository, embedded from `src/submission/views.py`.

The embedding models:
* the `Submission`, `Problem`, `Contest` records the views read and write,
* the access resolver `_get_submission`,
* the dispatcher `_judge` (Celery handoff plus Redis queue-length counter),
* the view bodies `SubmissionAPIView.post`, `SubmissionShareAPIView.post`,
  `SubmissionRejudgeAdminAPIView.post` and `my_submission`.

External collaborators (the Celery queue, the Redis counter store, the JSON
decoder) are modelled as explicit state or parameters; database `get`
lookups become first-match searches over explicit stores, and Django
exceptions become explicit error values.
-/

/-- A requesting identity, as the views see it: an id and an admin type
compared against the `SUPER_ADMIN` constant. -/
structure UserT where
  id : Nat
  admin_type : Nat
deriving Repr, DecidableEq

/-- Modelled from the spec: the constant `SUPER_ADMIN` is imported from
`account.models`, which is not under src/; the spec says the requester's
role is one of normal or super_admin, so only equality with this constant
matters and its numeric value is immaterial. -/
def SUPER_ADMIN : Nat := 2

/-- A row of the Submission store. Field names follow the Django model as
used by `submission/views.py`. `contest_id` is nullable; `info` is the
worker-supplied diagnostic payload, nullable. -/
structure Submission where
  id : Nat
  user_id : Nat
  problem_id : Nat
  contest_id : Option Nat
  language : Nat
  code : String
  result : Nat
  shared : Bool
  info : Option String
deriving Repr, DecidableEq

/-- A problem record as consumed by the views: resource limits, test case
reference and visibility flag. The same shape serves `Problem` and
`ContestProblem` rows, which the views consult through identical field
accesses. -/
structure Problem where
  id : Nat
  time_limit : Nat
  memory_limit : Nat
  test_case_id : String
  visible : Bool
deriving Repr, DecidableEq

/-- A contest record; the views only read `created_by`. -/
structure Contest where
  id : Nat
  created_by : Nat
deriving Repr, DecidableEq

/-- Python truthiness of a nullable integer field: `None` and `0` are falsy. -/
def optTruthy (o : Option Nat) : Bool := o.getD 0 != 0

/-- Python truthiness of a nullable string field: `None` and the empty
string are falsy. -/
def strTruthy (o : Option String) : Bool := o.getD "" != ""

/-- The Django exceptions the embedded views can raise. `_get_submission`
raises `Submission.DoesNotExist` both for a genuinely absent row and for
denied access; `Contest.objects.get` and `User.objects.get` raise their own
exceptions, which the views do not catch. -/
inductive Exn where
  | submissionDoesNotExist
  | contestDoesNotExist
  | userDoesNotExist
deriving Repr, DecidableEq

/-- `Submission.objects.get(id=submission_id)`: first row with a matching id. -/
def getSubmission (store : List Submission) (submission_id : Nat) : Option Submission :=
  store.find? (fun s => s.id == submission_id)

/-- `Contest.objects.get(id=contest_id)`: first row with a matching id. -/
def getContest (contests : List Contest) (contest_id : Nat) : Option Contest :=
  contests.find? (fun c => c.id == contest_id)

/-- `Problem.objects.get(id=problem_id)` (no visibility constraint). -/
def getProblem (problems : List Problem) (problem_id : Nat) : Option Problem :=
  problems.find? (fun p => p.id == problem_id)

/-- `Problem.objects.get(id=problem_id, visible=True)` and its
`ContestProblem` counterpart. -/
def getProblemVisible (problems : List Problem) (problem_id : Nat) : Option Problem :=
  problems.find? (fun p => p.id == problem_id && p.visible)

/-- The value `_get_submission` returns on success: the submission and the
`can_share` flag (`true` is the owner-or-admin tier, `false` the
public-shared tier). -/
structure AccessResult where
  submission : Submission
  can_share : Bool
deriving Repr, DecidableEq

/-- Embedding of `_get_submission(submission_id, user)` from
`submission/views.py`: look the submission up; super admins and the owner
get full access; for a contest submission the contest creator also gets
full access; a shared submission is readable by anyone; otherwise raise
`Submission.DoesNotExist`, the same exception as for an absent row. -/
def _get_submission (store : List Submission) (contests : List Contest)
    (submission_id : Nat) (user : UserT) : Except Exn AccessResult :=
  match getSubmission store submission_id with
  | none => .error .submissionDoesNotExist
  | some submission =>
    if user.admin_type == SUPER_ADMIN || submission.user_id == user.id then
      .ok ⟨submission, true⟩
    else if optTruthy submission.contest_id then
      match getContest contests (submission.contest_id.getD 0) with
      | none => .error .contestDoesNotExist
      | some contest =>
        if contest.created_by == user.id then
          .ok ⟨submission, true⟩
        else if submission.shared then
          .ok ⟨submission, false⟩
        else
          .error .submissionDoesNotExist
    else if submission.shared then
      .ok ⟨submission, false⟩
    else
      .error .submissionDoesNotExist

/-- Rule 4 of the spec's decision list: the submission belongs to a contest
and the requester is that contest's creator. -/
def isContestCreator (contests : List Contest) (s : Submission) (user : UserT) : Bool :=
  optTruthy s.contest_id &&
    match getContest contests (s.contest_id.getD 0) with
    | some c => c.created_by == user.id
    | none => false

/-- The spec's Access Resolver, transcribed as its flat first-match decision
list: missing row, super admin, owner, contest creator, shared flag,
otherwise the same not-found error as for a missing row. Used as the
reference the embedded `_get_submission` is compared against. -/
def resolverSpec (store : List Submission) (contests : List Contest)
    (submission_id : Nat) (user : UserT) : Except Exn AccessResult :=
  match getSubmission store submission_id with
  | none => .error .submissionDoesNotExist
  | some s =>
    if user.admin_type == SUPER_ADMIN then .ok ⟨s, true⟩
    else if s.user_id == user.id then .ok ⟨s, true⟩
    else if isContestCreator contests s user then .ok ⟨s, true⟩
    else if s.shared then .ok ⟨s, false⟩
    else .error .submissionDoesNotExist

/-- Referential integrity of contest references: every submission in the
store with a truthy `contest_id` has a matching contest row. The views
assume this (a dangling contest reference would raise an exception no view
catches), and the spec treats the contest lookup as total. -/
def contestsIntact (store : List Submission) (contests : List Contest) : Prop :=
  ∀ s ∈ store, optTruthy s.contest_id = true →
    (getContest contests (s.contest_id.getD 0)).isSome = true

instance (store : List Submission) (contests : List Contest) :
    Decidable (contestsIntact store contests) := by
  unfold contestsIntact
  exact List.decidableBAll _ store

/-- A concrete standalone submission used by witness theorems. -/
def sampleSub : Submission :=
  { id := 1, user_id := 7, problem_id := 3, contest_id := none, language := 1,
    code := "x", result := 6, shared := false, info := none }

/-- A concrete contest submission used by witness theorems. -/
def sampleContestSub : Submission :=
  { id := 2, user_id := 7, problem_id := 3, contest_id := some 4, language := 1,
    code := "x", result := 6, shared := true, info := none }

/-- A judging job as handed to `judge.delay`: the four arguments of `_judge`. -/
structure Job where
  submission_id : Nat
  time_limit : Nat
  memory_limit : Nat
  test_case_id : String
deriving Repr, DecidableEq

/-- The state of the external dispatch collaborators: the jobs accepted by
the Celery queue (`judge.delay`) and the Redis counter `judge_queue_length`.
`delayOk` models whether the external handoff call succeeds or raises; it
is part of the environment and never changed by the views. -/
structure DispatchState where
  queue : List Job
  judge_queue_length : Nat
  delayOk : Bool
deriving Repr, DecidableEq

/-- Embedding of `_judge(submission_id, time_limit, memory_limit,
test_case_id)`: hand the job to `judge.delay`, then increment the Redis
counter. If the handoff raises, the exception propagates and the counter
line is never reached. -/
def _judge (submission_id time_limit memory_limit : Nat) (test_case_id : String)
    (st : DispatchState) : Except Unit Unit × DispatchState :=
  if st.delayOk then
    (.ok (), { st with
      queue := st.queue ++ [⟨submission_id, time_limit, memory_limit, test_case_id⟩],
      judge_queue_length := st.judge_queue_length + 1 })
  else
    (.error (), st)

/-- The state the embedded views read and write: the submission store, the
problem and contest-problem catalogs, the contest and user stores, the next
auto-assigned submission id, and the dispatch collaborators. -/
structure World where
  submissions : List Submission
  problems : List Problem
  contestProblems : List Problem
  contests : List Contest
  users : List UserT
  next_id : Nat
  dispatch : DispatchState
deriving Repr, DecidableEq

/-- Modelled from the spec: the creation defaults of `submission.models.
Submission` (not under src/). `SubmissionAPIView.post` creates the row with
only `user_id`, `language`, `code` and `problem_id`; per the spec the row
starts with `result` in its initial pending state (a value distinct from
the success sentinel `0`), `shared` false, no contest and no info payload. -/
def initial_result : Nat := 6

/-- `Submission.objects.create(user_id=..., language=..., code=...,
problem_id=...)`: append a fresh row with the next id and the model
defaults, and return it. -/
def submissionCreate (w : World) (user_id language : Nat) (code : String)
    (problem_id : Nat) : Submission × World :=
  let s : Submission :=
    { id := w.next_id, user_id := user_id, problem_id := problem_id,
      contest_id := none, language := language, code := code,
      result := initial_result, shared := false, info := none }
  (s, { w with submissions := w.submissions ++ [s], next_id := w.next_id + 1 })

/-- The validated payload of `CreateSubmissionSerializer`. -/
structure CreateData where
  problem_id : Nat
  language : Nat
  code : String
deriving Repr, DecidableEq

/-- Responses of `SubmissionAPIView.post`: serializer rejection,
`error_response(msg)`, or `success_response` carrying the new submission id. -/
inductive IntakeResp where
  | invalid
  | errorResponse (msg : String)
  | success (submission_id : Nat)
deriving Repr, DecidableEq

/-- Embedding of `SubmissionAPIView.post`. The serializer is modelled as an
`Option CreateData` (`none` when invalid). Look up the problem, create the
Submission row, then dispatch; a dispatch exception is caught and turned
into an error response without touching the created row. -/
def submissionPost (req : Option CreateData) (user : UserT) (w : World) :
    IntakeResp × World :=
  match req with
  | none => (.invalid, w)
  | some data =>
    match getProblem w.problems data.problem_id with
    | none => (.errorResponse "题目不存在", w)
    | some problem =>
      let cw := submissionCreate w user.id data.language data.code problem.id
      match _judge cw.1.id problem.time_limit problem.memory_limit problem.test_case_id
          cw.2.dispatch with
      | (.error _, d) => (.errorResponse "提交判题任务失败", { cw.2 with dispatch := d })
      | (.ok _, d) => (.success cw.1.id, { cw.2 with dispatch := d })

/-- Responses of `SubmissionShareAPIView.post`: serializer rejection,
`error_response(msg)`, the `error_page(msg)` used when `can_share` is
false, an uncaught exception, or `success_response` carrying the new value
of `shared`. -/
inductive ShareResp where
  | invalid
  | errorResponse (msg : String)
  | errorPage (msg : String)
  | uncaught (e : Exn)
  | success (shared : Bool)
deriving Repr, DecidableEq

/-- `submission.save()`: write the row back, replacing the stored row with
the same id. -/
def saveSubmission (store : List Submission) (s : Submission) : List Submission :=
  store.map (fun t => if t.id == s.id then s else t)

/-- Embedding of `SubmissionShareAPIView.post`. The serializer is modelled
as an `Option Nat` holding the submission id. Run `_get_submission`;
`Submission.DoesNotExist` becomes an error response, any other exception
propagates; when `can_share` is false return the error page; otherwise
invert `shared`, save, and return the new value. -/
def sharePost (req : Option Nat) (user : UserT) (w : World) : ShareResp × World :=
  match req with
  | none => (.invalid, w)
  | some submission_id =>
    match _get_submission w.submissions w.contests submission_id user with
    | .error .submissionDoesNotExist => (.errorResponse "提交不存在", w)
    | .error e => (.uncaught e, w)
    | .ok result =>
      if !result.can_share then
        (.errorPage "提交不存在", w)
      else
        let submission := { result.submission with shared := !result.submission.shared }
        (.success submission.shared,
         { w with submissions := saveSubmission w.submissions submission })

/-- Responses of `SubmissionRejudgeAdminAPIView.post`. -/
inductive RejudgeResp where
  | invalid
  | errorResponse (msg : String)
  | success (msg : String)
deriving Repr, DecidableEq

/-- Embedding of `SubmissionRejudgeAdminAPIView.post` (the body guarded by
`super_admin_required`; the requester is passed through but the body never
reads it). The lookup filters on `contest_id__isnull=True`, so contest
submissions are invisible to rejudge; the problem is re-read from the
current catalog and its current limits are dispatched. -/
def rejudgePost (req : Option Nat) (user : UserT) (w : World) : RejudgeResp × World :=
  match req with
  | none => (.invalid, w)
  | some submission_id =>
    match w.submissions.find?
        (fun s => s.id == submission_id && s.contest_id == none) with
    | none => (.errorResponse "提交不存在", w)
    | some submission =>
      match getProblem w.problems submission.problem_id with
      | none => (.errorResponse "题目不存在", w)
      | some problem =>
        match _judge submission.id problem.time_limit problem.memory_limit
            problem.test_case_id w.dispatch with
        | (.error _, d) => (.errorResponse "提交判题任务失败", { w with dispatch := d })
        | (.ok _, d) => (.success "任务提交成功", { w with dispatch := d })

/-- The `info` value rendered by `my_submission`: either the decoded
structure or, when decoding fails, the raw stored string. -/
inductive Info (J : Type) where
  | parsed (j : J)
  | raw (s : String)
deriving Repr, DecidableEq

/-- Responses of the `my_submission` view: the not-found error page, an
uncaught exception, or the rendered detail page with its template context. -/
inductive PageResp (J : Type) where
  | errorPage (msg : String)
  | uncaught (e : Exn)
  | render (submission : Submission) (problem : Problem) (info : Option (Info J))
      (user : UserT) (can_share : Bool)
deriving Repr, DecidableEq

/-- Embedding of `my_submission(request, submission_id)`. The JSON decoder
`json.loads` is external, modelled by the parameter `parse` (`none` models
a raised decoding exception). Resolve access; look the problem up in the
contest or public catalog requiring visibility (any lookup exception
becomes the error page); decode `info` with fallback to the raw string;
finally load the owning user and render. -/
def my_submission (J : Type) (parse : String → Option J) (w : World)
    (submission_id : Nat) (user : UserT) : PageResp J :=
  match _get_submission w.submissions w.contests submission_id user with
  | .error .submissionDoesNotExist => .errorPage "提交不存在"
  | .error e => .uncaught e
  | .ok result =>
    let submission := result.submission
    let problemLookup :=
      if optTruthy submission.contest_id then
        getProblemVisible w.contestProblems submission.problem_id
      else
        getProblemVisible w.problems submission.problem_id
    match problemLookup with
    | none => .errorPage "提交不存在"
    | some problem =>
      let info : Option (Info J) :=
        if strTruthy submission.info then
          match parse (submission.info.getD "") with
          | some j => some (.parsed j)
          | none => some (.raw (submission.info.getD ""))
        else none
      match w.users.find? (fun u => u.id == submission.user_id) with
      | none => .uncaught .userDoesNotExist
      | some owner => .render submission problem info owner result.can_share

/-- A concrete standalone shared submission with an unparsable info blob. -/
def sampleSharedSub : Submission :=
  { id := 3, user_id := 7, problem_id := 3, contest_id := none, language := 1,
    code := "x", result := 0, shared := true, info := some "notjson" }

/-- A concrete problem record. -/
def sampleProblem : Problem :=
  { id := 3, time_limit := 1000, memory_limit := 64, test_case_id := "tc",
    visible := true }

/-- A concrete world used by witness theorems. -/
def sampleWorld : World :=
  { submissions := [sampleSub, sampleContestSub, sampleSharedSub],
    problems := [sampleProblem],
    contestProblems := [sampleProblem],
    contests := [{ id := 4, created_by := 9 }],
    users := [{ id := 7, admin_type := 0 }, { id := 8, admin_type := 0 },
              { id := 9, admin_type := 0 }, { id := 1, admin_type := 2 }],
    next_id := 10,
    dispatch := { queue := [], judge_queue_length := 0, delayOk := true } }

/-- C1: the Access Resolver follows the spec's first-match decision order.
Under referential integrity of contest references, `_get_submission` agrees
with `resolverSpec`, the flat decision list of the spec: missing submission
fails with the not-found error, then super admin, then owner, then contest
creator, then the shared flag, then the same not-found error. In
`resolverSpec` the contest-creator rule textually precedes the shared-flag
fallback, so the agreement shows the creator check is evaluated before the
shared fallback. -/
theorem C1_access_resolver_decision_order
    (store : List Submission) (contests : List Contest) (sid : Nat) (user : UserT)
    (hInt : contestsIntact store contests) :
    _get_submission store contests sid user = resolverSpec store contests sid user := by
  unfold _get_submission resolverSpec isContestCreator
  cases hfind : getSubmission store sid with
  | none => rfl
  | some s =>
    have hmem : s ∈ store := List.mem_of_find?_eq_some hfind
    by_cases ha : user.admin_type == SUPER_ADMIN
    · simp [ha]
    · by_cases ho : s.user_id == user.id
      · simp [ha, ho]
      · by_cases hc : optTruthy s.contest_id
        · cases hcon : getContest contests (s.contest_id.getD 0) with
          | none =>
            exact absurd (hInt s hmem hc) (by simp [hcon])
          | some c =>
            by_cases hcr : c.created_by == user.id <;>
              simp [ha, ho, hc, hcon, hcr]
        · simp [ha, ho, hc]

/-- Witness for C1 at a concrete contest submission and requester. -/
theorem C1_access_resolver_decision_order_witness :
    _get_submission [sampleContestSub] [{ id := 4, created_by := 9 }] 2
        { id := 9, admin_type := 0 } =
      resolverSpec [sampleContestSub] [{ id := 4, created_by := 9 }] 2
        { id := 9, admin_type := 0 } :=
  C1_access_resolver_decision_order [sampleContestSub] [{ id := 4, created_by := 9 }] 2
    { id := 9, admin_type := 0 } (by decide)

/-- C2: for a non-shared submission, a requester who is not the owner, not a
super admin, and not the creator of the submission's contest receives
exactly the same `Submission.DoesNotExist` error as a submission id with no
row at all; no other error kind is produced for denial. -/
theorem C2_denied_indistinguishable_from_absent
    (store : List Submission) (contests : List Contest) (s : Submission)
    (sid sidAbsent : Nat) (B : UserT)
    (hs : getSubmission store sid = some s)
    (hshared : s.shared = false)
    (hadmin : B.admin_type ≠ SUPER_ADMIN)
    (howner : s.user_id ≠ B.id)
    (hcreator : ∀ c, getContest contests (s.contest_id.getD 0) = some c →
      c.created_by ≠ B.id)
    (hInt : optTruthy s.contest_id = true →
      (getContest contests (s.contest_id.getD 0)).isSome = true)
    (habsent : getSubmission store sidAbsent = none) :
    _get_submission store contests sid B = .error .submissionDoesNotExist ∧
    _get_submission store contests sidAbsent B = .error .submissionDoesNotExist := by
  have ha : (B.admin_type == SUPER_ADMIN) = false := by simpa using hadmin
  have ho : (s.user_id == B.id) = false := by simpa using howner
  refine ⟨?_, ?_⟩
  · unfold _get_submission
    rw [hs]
    by_cases hc : optTruthy s.contest_id
    · cases hcon : getContest contests (s.contest_id.getD 0) with
      | none => exact absurd (hInt hc) (by simp [hcon])
      | some c =>
        have hcr : (c.created_by == B.id) = false := by simpa using hcreator c hcon
        simp [ha, ho, hc, hcon, hcr, hshared]
    · simp [ha, ho, hc, hshared]
  · unfold _get_submission
    rw [habsent]

/-- Witness for C2: user 8 requesting submission 1 (unshared, owned by user
7) gets the same error as requesting the absent id 99. -/
theorem C2_denied_indistinguishable_from_absent_witness :
    _get_submission [sampleSub] [] 1 { id := 8, admin_type := 0 } =
        .error .submissionDoesNotExist ∧
    _get_submission [sampleSub] [] 99 { id := 8, admin_type := 0 } =
        .error .submissionDoesNotExist :=
  C2_denied_indistinguishable_from_absent [sampleSub] [] sampleSub 1 99
    { id := 8, admin_type := 0 } rfl rfl (by decide) (by decide)
    (fun c hc => by simp [getContest] at hc) (by decide) rfl

/-- C10: whenever the Access Resolver succeeds with the public-shared tier
(`can_share = false`), the returned submission's `shared` flag is true. -/
theorem C10_public_tier_implies_shared
    (store : List Submission) (contests : List Contest) (sid : Nat) (user : UserT)
    (r : AccessResult)
    (h : _get_submission store contests sid user = .ok r)
    (hc : r.can_share = false) :
    r.submission.shared = true := by
  unfold _get_submission at h
  repeat' split at h
  any_goals cases h
  all_goals simp_all

/-- Witness for C10: user 8 viewing shared submission 3 gets the public
tier, and the flag is indeed true. -/
theorem C10_public_tier_implies_shared_witness :
    (⟨sampleSharedSub, false⟩ : AccessResult).submission.shared = true :=
  C10_public_tier_implies_shared [sampleSharedSub] [] 3 { id := 8, admin_type := 0 }
    ⟨sampleSharedSub, false⟩ rfl rfl

/-- C3: the share toggle runs the Access Resolver; when the resolver denies
(its `Submission.DoesNotExist`, covering both absence and denial) the view
fails with that same error as an error response, and when the resolver
grants only the public-shared tier (`can_share = false`) the view fails
with the dedicated denial branch — realized in the code as the
`error_page` response, the view's distinct mutation-forbidden outcome — and
the store is unchanged, so a non-owner viewer of a shared submission can
never flip its `shared` flag. -/
theorem C3_share_toggle_gated_by_resolver (w : World) (user : UserT) (sid : Nat) :
    (_get_submission w.submissions w.contests sid user =
        .error .submissionDoesNotExist →
      sharePost (some sid) user w = (.errorResponse "提交不存在", w))
  ∧ (∀ r, _get_submission w.submissions w.contests sid user = .ok r →
      r.can_share = false →
      sharePost (some sid) user w = (.errorPage "提交不存在", w)) := by
  constructor
  · intro h
    simp [sharePost, h]
  · intro r h hc
    simp [sharePost, h, hc]

/-- Witness for C3: user 8 toggling the unshared submission 1 gets the
resolver's error; user 8 toggling the shared submission 3 gets the denial
page, and in both cases the world is unchanged. -/
theorem C3_share_toggle_gated_by_resolver_witness :
    sharePost (some 1) { id := 8, admin_type := 0 } sampleWorld =
        (.errorResponse "提交不存在", sampleWorld) ∧
    sharePost (some 3) { id := 8, admin_type := 0 } sampleWorld =
        (.errorPage "提交不存在", sampleWorld) :=
  ⟨(C3_share_toggle_gated_by_resolver sampleWorld { id := 8, admin_type := 0 } 1).1 rfl,
   (C3_share_toggle_gated_by_resolver sampleWorld { id := 8, admin_type := 0 } 3).2
     ⟨sampleSharedSub, false⟩ rfl rfl⟩

/-- C4: a successful handoff to the external queue increments the
queue-depth counter by exactly one (and records exactly the handed-off
job); if the handoff itself throws, the error propagates out of `_judge`
and the dispatch state — counter included — is unchanged. -/
theorem C4_judge_counter (sid tl ml : Nat) (tc : String) (st : DispatchState) :
    (st.delayOk = true →
      _judge sid tl ml tc st =
        (.ok (), ⟨st.queue ++ [⟨sid, tl, ml, tc⟩], st.judge_queue_length + 1,
          st.delayOk⟩))
  ∧ (st.delayOk = false →
      _judge sid tl ml tc st = (.error (), st)) := by
  constructor <;> intro h <;> simp [_judge, h]

/-- Witness for C4 at a concrete job, in both a healthy and a failing
dispatch environment. -/
theorem C4_judge_counter_witness :
    _judge 1 1000 64 "tc" ⟨[], 5, true⟩ =
      (.ok (), ⟨[⟨1, 1000, 64, "tc"⟩], 6, true⟩) ∧
    _judge 1 1000 64 "tc" ⟨[], 5, false⟩ =
      (.error (), ⟨[], 5, false⟩) :=
  ⟨(C4_judge_counter 1 1000 64 "tc" ⟨[], 5, true⟩).1 rfl,
   (C4_judge_counter 1 1000 64 "tc" ⟨[], 5, false⟩).2 rfl⟩

/-- C5: when the problem exists and dispatch fails, the intake view surfaces
the dispatch failure as an error response, yet the just-created Submission
row stays persisted: the store becomes the old store plus exactly one new
row, in its initial pending state (`result = initial_result`, `shared`
false, no contest, no info), and nothing else in the world changes — in
particular the queue and counter are untouched. -/
theorem C5_dispatch_failure_keeps_submission (data : CreateData) (user : UserT)
    (w : World) (p : Problem)
    (hp : getProblem w.problems data.problem_id = some p)
    (hfail : w.dispatch.delayOk = false) :
    (submissionPost (some data) user w).1 = .errorResponse "提交判题任务失败" ∧
    (submissionPost (some data) user w).2.submissions =
      w.submissions ++
        [⟨w.next_id, user.id, p.id, none, data.language, data.code,
          initial_result, false, none⟩] ∧
    (submissionPost (some data) user w).2.next_id = w.next_id + 1 ∧
    (submissionPost (some data) user w).2.dispatch = w.dispatch ∧
    (submissionPost (some data) user w).2.problems = w.problems ∧
    (submissionPost (some data) user w).2.contestProblems = w.contestProblems ∧
    (submissionPost (some data) user w).2.contests = w.contests ∧
    (submissionPost (some data) user w).2.users = w.users := by
  simp [submissionPost, hp, submissionCreate, _judge, hfail]

/-- Witness for C5: a concrete intake against a world whose dispatch is
failing leaves exactly the one new pending row behind. -/
theorem C5_dispatch_failure_keeps_submission_witness :
    (submissionPost (some ⟨3, 1, "print(1)"⟩) { id := 8, admin_type := 0 }
        { sampleWorld with dispatch := ⟨[], 0, false⟩ }).1 =
      .errorResponse "提交判题任务失败" ∧
    (submissionPost (some ⟨3, 1, "print(1)"⟩) { id := 8, admin_type := 0 }
        { sampleWorld with dispatch := ⟨[], 0, false⟩ }).2.submissions =
      sampleWorld.submissions ++
        [⟨10, 8, 3, none, 1, "print(1)", initial_result, false, none⟩] :=
  ⟨(C5_dispatch_failure_keeps_submission ⟨3, 1, "print(1)"⟩ { id := 8, admin_type := 0 }
      { sampleWorld with dispatch := ⟨[], 0, false⟩ } sampleProblem rfl rfl).1,
   (C5_dispatch_failure_keeps_submission ⟨3, 1, "print(1)"⟩ { id := 8, admin_type := 0 }
      { sampleWorld with dispatch := ⟨[], 0, false⟩ } sampleProblem rfl rfl).2.1⟩

/-- C6: rejudge looks the submission up with the `contest_id` null filter,
so when every row with the requested id belongs to a contest the view fails
with the submission not-found error, for every requester (the body never
reads the requester), and the world is unchanged. -/
theorem C6_rejudge_excludes_contest_submissions (w : World) (user : UserT) (sid : Nat)
    (hall : ∀ s ∈ w.submissions, s.id = sid → s.contest_id ≠ none) :
    rejudgePost (some sid) user w = (.errorResponse "提交不存在", w) := by
  have hfind : w.submissions.find?
      (fun s => s.id == sid && s.contest_id == none) = none := by
    rw [List.find?_eq_none]
    intro s hs
    simp only [Bool.and_eq_true, beq_iff_eq, not_and]
    intro hid hcid
    exact hall s hs hid hcid
  simp [rejudgePost, hfind]

/-- Witness for C6: a super admin rejudging contest submission 2 gets the
not-found error. -/
theorem C6_rejudge_excludes_contest_submissions_witness :
    rejudgePost (some 2) { id := 1, admin_type := 2 } sampleWorld =
      (.errorResponse "提交不存在", sampleWorld) :=
  C6_rejudge_excludes_contest_submissions sampleWorld { id := 1, admin_type := 2 } 2
    (by decide)

/-- C7: rejudging a standalone submission whose problem exists dispatches a
job built from the problem record currently in the catalog — its current
`time_limit`, `memory_limit` and `test_case_id` — increments the queue
length by one, and leaves the submission store (hence every `result`)
unchanged. -/
theorem C7_rejudge_uses_current_limits (w : World) (user : UserT) (sid : Nat)
    (s : Submission) (p : Problem)
    (hs : w.submissions.find? (fun t => t.id == sid && t.contest_id == none) = some s)
    (hp : getProblem w.problems s.problem_id = some p)
    (hok : w.dispatch.delayOk = true) :
    (rejudgePost (some sid) user w).1 = .success "任务提交成功" ∧
    (rejudgePost (some sid) user w).2.dispatch.queue =
      w.dispatch.queue ++ [⟨s.id, p.time_limit, p.memory_limit, p.test_case_id⟩] ∧
    (rejudgePost (some sid) user w).2.dispatch.judge_queue_length =
      w.dispatch.judge_queue_length + 1 ∧
    (rejudgePost (some sid) user w).2.submissions = w.submissions := by
  simp [rejudgePost, hs, hp, _judge, hok]

/-- Witness for C7: a super admin rejudging standalone submission 1
dispatches the current limits of problem 3. -/
theorem C7_rejudge_uses_current_limits_witness :
    (rejudgePost (some 1) { id := 1, admin_type := 2 } sampleWorld).1 =
      .success "任务提交成功" ∧
    (rejudgePost (some 1) { id := 1, admin_type := 2 } sampleWorld).2.dispatch.queue =
      [⟨1, 1000, 64, "tc"⟩] :=
  ⟨(C7_rejudge_uses_current_limits sampleWorld { id := 1, admin_type := 2 } 1
      sampleSub sampleProblem rfl rfl rfl).1,
   (C7_rejudge_uses_current_limits sampleWorld { id := 1, admin_type := 2 } 1
      sampleSub sampleProblem rfl rfl rfl).2.1⟩

/-- A successful lookup pins the row's id to the queried id. -/
theorem getSubmission_id (store : List Submission) (sid : Nat) (s : Submission)
    (h : getSubmission store sid = some s) : s.id = sid := by
  have := List.find?_some h
  simpa using this

/-- Saving a row with the same id replaces the row the lookup returns. -/
theorem getSubmission_save (store : List Submission) (s s' : Submission)
    (hid : s'.id = s.id) :
    getSubmission store s.id = some s →
    getSubmission (saveSubmission store s') s.id = some s' := by
  simp only [getSubmission, saveSubmission]
  induction store with
  | nil => intro h; simp at h
  | cons t ts ih =>
    intro h
    simp only [List.map_cons]
    by_cases ht : (t.id == s.id) = true
    · have ht' : (t.id == s'.id) = true := by rw [hid]; exact ht
      have hs' : (s'.id == s.id) = true := by simp [hid]
      rw [if_pos ht']
      exact List.find?_cons_of_pos _ hs'
    · have ht' : ¬ (t.id == s'.id) = true := by rw [hid]; exact ht
      have e : List.find? (fun x => x.id == s.id) (t :: ts) =
          List.find? (fun x => x.id == s.id) ts :=
        List.find?_cons_of_neg _ ht
      rw [e] at h
      rw [if_neg ht']
      have e' : List.find? (fun x => x.id == s.id)
          (t :: List.map (fun u => if (u.id == s'.id) = true then s' else u) ts) =
          List.find? (fun x => x.id == s.id)
            (List.map (fun u => if (u.id == s'.id) = true then s' else u) ts) :=
        List.find?_cons_of_neg _ ht
      rw [e']
      exact ih h

/-- Inversion of the owner-or-admin outcome of the resolver: the row was
found, and the requester is a super admin, the owner, or the creator of the
submission's (existing) contest. -/
theorem resolver_ok_owner_inv (store : List Submission) (contests : List Contest)
    (sid : Nat) (user : UserT) (s : Submission)
    (h : _get_submission store contests sid user = .ok ⟨s, true⟩) :
    getSubmission store sid = some s ∧
    ((user.admin_type == SUPER_ADMIN || s.user_id == user.id) = true ∨
      ∃ c, getContest contests (s.contest_id.getD 0) = some c ∧
        (c.created_by == user.id) = true ∧ optTruthy s.contest_id = true) := by
  unfold _get_submission at h
  cases hfind : getSubmission store sid with
  | none => rw [hfind] at h; cases h
  | some t =>
    rw [hfind] at h
    simp only [] at h
    by_cases ha : (user.admin_type == SUPER_ADMIN || t.user_id == user.id) = true
    · rw [if_pos ha] at h
      simp only [Except.ok.injEq, AccessResult.mk.injEq, and_true] at h
      subst h
      exact ⟨rfl, .inl ha⟩
    · rw [if_neg ha] at h
      by_cases hc : optTruthy t.contest_id = true
      · rw [if_pos hc] at h
        cases hcon : getContest contests (t.contest_id.getD 0) with
        | none => rw [hcon] at h; cases h
        | some c =>
          rw [hcon] at h
          simp only [] at h
          by_cases hcr : (c.created_by == user.id) = true
          · rw [if_pos hcr] at h
            simp only [Except.ok.injEq, AccessResult.mk.injEq, and_true] at h
            subst h
            exact ⟨rfl, .inr ⟨c, hcon, hcr, hc⟩⟩
          · rw [if_neg hcr] at h
            by_cases hsh : t.shared = true
            · rw [if_pos hsh] at h; simp at h
            · rw [if_neg hsh] at h; cases h
      · rw [if_neg hc] at h
        by_cases hsh : t.shared = true
        · rw [if_pos hsh] at h; simp at h
        · rw [if_neg hsh] at h; cases h

/-- The owner-or-admin outcome does not depend on the `shared` flag: if the
requester was a super admin, the owner, or the contest creator for row `s`,
then on any store whose lookup returns a row `t` agreeing with `s` on
`user_id` and `contest_id`, the resolver grants the owner-or-admin tier
for `t`. -/
theorem resolver_ok_owner_again (store2 : List Submission) (contests : List Contest)
    (sid : Nat) (user : UserT) (s t : Submission)
    (hbr : ((user.admin_type == SUPER_ADMIN || s.user_id == user.id) = true ∨
      ∃ c, getContest contests (s.contest_id.getD 0) = some c ∧
        (c.created_by == user.id) = true ∧ optTruthy s.contest_id = true))
    (huid : t.user_id = s.user_id) (hcid : t.contest_id = s.contest_id)
    (h2 : getSubmission store2 sid = some t) :
    _get_submission store2 contests sid user = .ok ⟨t, true⟩ := by
  unfold _get_submission
  rw [h2]
  by_cases ha : (user.admin_type == SUPER_ADMIN || t.user_id == user.id) = true
  · simp [ha]
  · rcases hbr with ha' | ⟨c, hcon, hcr, hc⟩
    · rw [huid] at ha; exact absurd ha' ha
    · simp [ha, hcid, hc, hcon, hcr]

/-- C8: a successful toggle by an owner-or-admin requester inverts the
`shared` flag, persists it, and returns the new value; doing it twice
restores the original row exactly. -/
theorem C8_share_toggle_involution (w : World) (user : UserT) (sid : Nat)
    (s : Submission)
    (h : _get_submission w.submissions w.contests sid user = .ok ⟨s, true⟩) :
    (sharePost (some sid) user w).1 = .success (!s.shared) ∧
    getSubmission (sharePost (some sid) user w).2.submissions sid =
      some { s with shared := !s.shared } ∧
    (sharePost (some sid) user (sharePost (some sid) user w).2).1 =
      .success s.shared ∧
    getSubmission
      (sharePost (some sid) user (sharePost (some sid) user w).2).2.submissions sid =
      some s := by
  obtain ⟨hfind, hbr⟩ := resolver_ok_owner_inv _ _ _ _ _ h
  have hid : s.id = sid := getSubmission_id _ _ _ hfind
  have e1 : sharePost (some sid) user w =
      (.success (!s.shared),
        { w with submissions :=
            saveSubmission w.submissions { s with shared := !s.shared } }) := by
    simp [sharePost, h]
  have hfind1 : getSubmission
      (saveSubmission w.submissions { s with shared := !s.shared }) sid =
      some { s with shared := !s.shared } := by
    rw [← hid] at hfind ⊢
    exact getSubmission_save _ _ _ rfl hfind
  have h2 : _get_submission
      (saveSubmission w.submissions { s with shared := !s.shared })
      w.contests sid user = .ok ⟨{ s with shared := !s.shared }, true⟩ :=
    resolver_ok_owner_again _ _ _ _ _ _ hbr rfl rfl hfind1
  have hback : ({ s with shared := !(!s.shared) } : Submission) = s := by
    cases s; simp
  have e2 : sharePost (some sid) user
      { w with submissions :=
          saveSubmission w.submissions { s with shared := !s.shared } } =
      (.success (!(!s.shared)),
        { w with submissions := saveSubmission (saveSubmission w.submissions { s with shared := !s.shared }) { s with shared := !(!s.shared) } }) := by
    simp [sharePost, h2]
  have hfind2 : getSubmission
      (saveSubmission
        (saveSubmission w.submissions { s with shared := !s.shared })
        { s with shared := !(!s.shared) }) sid =
      some { s with shared := !(!s.shared) } := by
    rw [← hid] at hfind1 ⊢
    exact getSubmission_save _ { s with shared := !s.shared } _ rfl hfind1
  refine ⟨?_, ?_, ?_, ?_⟩
  · rw [e1]
  · rw [e1]; exact hfind1
  · rw [e1]
    dsimp only
    rw [e2]
    simp
  · rw [e1]
    dsimp only
    rw [e2]
    dsimp only
    rw [hback] at hfind2 ⊢
    exact hfind2

/-- Witness for C8: the owner (user 7) toggling submission 1 twice restores
the original row. -/
theorem C8_share_toggle_involution_witness :
    (sharePost (some 1) { id := 7, admin_type := 0 } sampleWorld).1 =
      .success (!sampleSub.shared) ∧
    getSubmission
      (sharePost (some 1) { id := 7, admin_type := 0 } sampleWorld).2.submissions 1 =
      some { sampleSub with shared := !sampleSub.shared } ∧
    (sharePost (some 1) { id := 7, admin_type := 0 }
      (sharePost (some 1) { id := 7, admin_type := 0 } sampleWorld).2).1 =
      .success sampleSub.shared ∧
    getSubmission
      (sharePost (some 1) { id := 7, admin_type := 0 }
        (sharePost (some 1) { id := 7, admin_type := 0 } sampleWorld).2).2.submissions 1 =
      some sampleSub :=
  C8_share_toggle_involution sampleWorld { id := 7, admin_type := 0 } 1 sampleSub rfl

/-- C9: on the detail read path, once access is resolved and the problem
and owning user are found, a stored info payload that is present (truthy)
but fails structured decoding is returned raw and unchanged inside a
successful render — the request never fails over the blob — and an absent
payload is rendered as absent. -/
theorem C9_info_parse_fallback (J : Type) (parse : String → Option J) (w : World)
    (sid : Nat) (user : UserT) (r : AccessResult) (p : Problem) (owner : UserT)
    (h : _get_submission w.submissions w.contests sid user = .ok r)
    (hp : (if optTruthy r.submission.contest_id then
        getProblemVisible w.contestProblems r.submission.problem_id
      else getProblemVisible w.problems r.submission.problem_id) = some p)
    (hu : w.users.find? (fun u => u.id == r.submission.user_id) = some owner) :
    (∀ str, r.submission.info = some str → (str != "") = true → parse str = none →
      my_submission J parse w sid user =
        .render r.submission p (some (.raw str)) owner r.can_share)
  ∧ (r.submission.info = none →
      my_submission J parse w sid user =
        .render r.submission p none owner r.can_share) := by
  constructor
  · intro str hinfo hne hparse
    simp [my_submission, h, hp, hu, hinfo, strTruthy, hne, hparse]
  · intro hinfo
    simp [my_submission, h, hp, hu, hinfo, strTruthy]

/-- Witness for C9: owner 7 reading submission 3 (info is the unparsable
blob) gets a successful render carrying the raw blob; reading submission 1
(no info) gets a successful render with no info. -/
theorem C9_info_parse_fallback_witness :
    my_submission Nat (fun _ => none) sampleWorld 3 { id := 7, admin_type := 0 } =
      .render sampleSharedSub sampleProblem (some (.raw "notjson"))
        { id := 7, admin_type := 0 } true ∧
    my_submission Nat (fun _ => none) sampleWorld 1 { id := 7, admin_type := 0 } =
      .render sampleSub sampleProblem none { id := 7, admin_type := 0 } true :=
  ⟨(C9_info_parse_fallback Nat (fun _ => none) sampleWorld 3 { id := 7, admin_type := 0 }
      ⟨sampleSharedSub, true⟩ sampleProblem { id := 7, admin_type := 0 } rfl rfl rfl).1
      "notjson" rfl rfl rfl,
   (C9_info_parse_fallback Nat (fun _ => none) sampleWorld 1 { id := 7, admin_type := 0 }
      ⟨sampleSub, true⟩ sampleProblem { id := 7, admin_type := 0 } rfl rfl rfl).2 rfl⟩
